import Mathlib

/-!
Verification of the DRTP file-transfer protocol (`src/application.py`).

The development shallowly embeds the protocol logic of `application.py`:
the packet codec (`create_packet`, `parse_header`, `parse_packet`,
`parse_flags`), the server and client handshake handlers, the Go-Back-N
sender's acknowledgment handling and timeout retransmission, and the
sequential receiver's data-phase loop.

Modelling conventions:
* Byte strings are `List Nat` (each entry a byte value).
* Python integers are `Nat` or `Int` (`Int` where the source can hold `-1`,
  e.g. the receiver's `discard_seq` and the sender's `ack_num - 1`).
* `struct.pack('!HHHH', ...)` raises `struct.error` when a field is outside
  `0..65535`; `create_packet` therefore returns `Option`, with `none`
  modelling the raised exception (which no caller in the source catches).
* `struct.unpack` on a buffer that is not exactly 8 bytes raises; the
  spec's error taxonomy names this decode failure `MalformedPacketError`,
  so the embedded parser fails with that single error constructor.
* Wall-clock timestamps (`time.time()`, floats in the source) are modelled
  as exact rationals; the retransmission loop is modelled at the single
  instant `now` at which the timeout handler runs.
-/

namespace DRTP

/-- Constants from `application.py` lines 11-24. -/
def PACKET_SIZE : Nat := 1000

/-- Header size in bytes (`application.py` line 13). -/
def HEADER_SIZE : Nat := 8

/-- Maximum data per packet (`application.py` line 14): `PACKET_SIZE - HEADER_SIZE`. -/
def TRANSFERRED_DATA_SIZE : Nat := PACKET_SIZE - HEADER_SIZE

/-- Maximum window size the server accepts (`application.py` line 16). -/
def MAX_SERVER_WINDOW : Nat := 15

/-- SYN flag bit, `1 <<< 3` (`application.py` line 19). -/
def SYN : Nat := 8

/-- ACK flag bit, `1 <<< 2` (`application.py` line 20). -/
def ACK : Nat := 4

/-- FIN flag bit, `1 <<< 1` (`application.py` line 21). -/
def FIN : Nat := 2

/-- Retransmission timeout in seconds (`application.py` line 12): 400 ms. -/
def TIMEOUT : ℚ := 2 / 5

/-- Big-endian two-byte encoding of a field value, as `struct.pack('!H', x)`
produces for `x ≤ 65535`. -/
def pack16 (x : Nat) : List Nat := [x / 256, x % 256]

/-- Lines 41-43: `create_packet(seq, ack, flags, win, data)` packs the four
header fields with `struct.pack('!HHHH', ...)` and appends the data.
`struct.pack` raises `struct.error` when a field is outside `0..65535`;
that failure is modelled as `none`. -/
def create_packet (seq ack flags win : Nat) (data : List Nat) : Option (List Nat) :=
  if seq ≤ 65535 ∧ ack ≤ 65535 ∧ flags ≤ 65535 ∧ win ≤ 65535 then
    some (pack16 seq ++ pack16 ack ++ pack16 flags ++ pack16 win ++ data)
  else
    none

/-- Decode failure taxonomy: the spec names the decode failure
`MalformedPacketError` (the source surfaces `struct.error` from
`struct.unpack` when the buffer is not exactly 8 bytes). -/
inductive PacketError
  | MalformedPacketError
deriving DecidableEq, Repr

/-- Lines 54-55: `parse_header(header)` is `struct.unpack('!HHHH', header)`,
which succeeds exactly when the buffer is exactly 8 bytes and returns the
four big-endian 16-bit fields. -/
def parse_header (header : List Nat) : Except PacketError (Nat × Nat × Nat × Nat) :=
  match header with
  | [b0, b1, b2, b3, b4, b5, b6, b7] =>
      .ok (b0 * 256 + b1, b2 * 256 + b3, b4 * 256 + b5, b6 * 256 + b7)
  | _ => .error .MalformedPacketError

/-- Lines 65-69: `parse_packet(packet)` splits off the first `HEADER_SIZE`
bytes, unpacks them with `parse_header`, and returns the fields together
with the remaining data. -/
def parse_packet (packet : List Nat) :
    Except PacketError (Nat × Nat × Nat × Nat × List Nat) :=
  match parse_header (packet.take HEADER_SIZE) with
  | .ok (seq, ack, flags, win) => .ok (seq, ack, flags, win, packet.drop HEADER_SIZE)
  | .error e => .error e

/-- Lines 80-84: `parse_flags(flags)` returns
`(flags & SYN, flags & ACK, flags & FIN)`; a component is "set" when it is
non-zero (Python truthiness). -/
def parse_flags (flags : Nat) : Nat × Nat × Nat :=
  (flags &&& SYN, flags &&& ACK, flags &&& FIN)

/-- Reconstitution of a packed 16-bit field. -/
theorem pack16_unpack (x : Nat) : x / 256 * 256 + x % 256 = x := by
  have h := Nat.div_add_mod x 256
  omega

/-- In-range fields encode to the 8-byte header followed by the data, and
that byte string decodes back to the original fields and data. -/
theorem create_parse (seq ack flags win : Nat) (payload : List Nat)
    (h1 : seq ≤ 65535) (h2 : ack ≤ 65535) (h3 : flags ≤ 65535) (h4 : win ≤ 65535) :
    create_packet seq ack flags win payload =
      some (pack16 seq ++ pack16 ack ++ pack16 flags ++ pack16 win ++ payload) ∧
    parse_packet (pack16 seq ++ pack16 ack ++ pack16 flags ++ pack16 win ++ payload) =
      .ok (seq, ack, flags, win, payload) := by
  constructor
  · simp [create_packet, h1, h2, h3, h4]
  · simp [parse_packet, parse_header, pack16, HEADER_SIZE, pack16_unpack]

/-- Claim C4: codec round-trip. For all header fields in `0..65535` and any
payload of length at most `TRANSFERRED_DATA_SIZE` (992 bytes), encoding
succeeds and decoding the encoding returns exactly the original tuple:
`parse_packet (create_packet seq ack flags win payload) = (seq, ack, flags,
win, payload)`.  (The round trip in fact needs no bound on the payload
length; the bound is carried because the claim states it.) -/
theorem C4_codec_roundtrip (seq ack flags win : Nat) (payload : List Nat)
    (h1 : seq ≤ 65535) (h2 : ack ≤ 65535) (h3 : flags ≤ 65535) (h4 : win ≤ 65535)
    (h5 : payload.length ≤ TRANSFERRED_DATA_SIZE) :
    ∃ p, create_packet seq ack flags win payload = some p ∧
      parse_packet p = .ok (seq, ack, flags, win, payload) := by
  have h := create_parse seq ack flags win payload h1 h2 h3 h4
  exact ⟨_, h.1, h.2⟩

/-- Witness for C4 at a concrete packet. -/
theorem C4_codec_roundtrip_witness :
    ∃ p, create_packet 7 300 12 15 [1, 2, 3] = some p ∧
      parse_packet p = .ok (7, 300, 12, 15, [1, 2, 3]) :=
  C4_codec_roundtrip 7 300 12 15 [1, 2, 3]
    (by decide) (by decide) (by decide) (by decide) (by decide)

/-- Claim C9: malformed-packet decoding. For every input of fewer than
8 bytes, `parse_packet` fails with `MalformedPacketError` (it does not
return a header tuple); for every input of at least 8 bytes, it succeeds. -/
theorem C9_malformed_packet (p : List Nat) :
    (p.length < HEADER_SIZE → parse_packet p = .error .MalformedPacketError) ∧
    (HEADER_SIZE ≤ p.length →
      ∃ seq ack flags win data, parse_packet p = .ok (seq, ack, flags, win, data)) := by
  constructor
  · intro h
    rcases p with _ | ⟨b0, _ | ⟨b1, _ | ⟨b2, _ | ⟨b3, _ | ⟨b4, _ | ⟨b5, _ | ⟨b6, _ | ⟨b7, rest⟩⟩⟩⟩⟩⟩⟩⟩ <;>
      first
        | rfl
        | (exfalso; simp [HEADER_SIZE] at h; all_goals omega)
  · intro h
    rcases p with _ | ⟨b0, _ | ⟨b1, _ | ⟨b2, _ | ⟨b3, _ | ⟨b4, _ | ⟨b5, _ | ⟨b6, _ | ⟨b7, rest⟩⟩⟩⟩⟩⟩⟩⟩ <;>
      first
        | exact ⟨_, _, _, _, _, rfl⟩
        | (exfalso; simp [HEADER_SIZE] at h; all_goals omega)

/-- Witness for C9: a 7-byte datagram is rejected as malformed and an
8-byte datagram decodes. -/
theorem C9_malformed_packet_witness :
    parse_packet [1, 2, 3, 4, 5, 6, 7] = .error .MalformedPacketError ∧
    ∃ seq ack flags win data,
      parse_packet [0, 1, 0, 2, 0, 4, 0, 3] = .ok (seq, ack, flags, win, data) :=
  ⟨(C9_malformed_packet [1, 2, 3, 4, 5, 6, 7]).1 (by decide),
   (C9_malformed_packet [0, 1, 0, 2, 0, 4, 0, 3]).2 (by decide)⟩

/-! ### Go-Back-N sender: acknowledgment handling and timeout retransmission -/

/-- Lines 198-199: the `while window and window[0] <= acked_seq:
window.pop(0)` loop, viewed as a function of the window list and the
acknowledged sequence.  The first component records the entries popped from
the front, in pop order; the second component is the window that remains. -/
def slideWindow : List Int → Int → List Int × List Int
  | [], _ => ([], [])
  | s :: rest, ackedSeq =>
      if s ≤ ackedSeq then
        let r := slideWindow rest ackedSeq
        (s :: r.1, r.2)
      else ([], s :: rest)

/-- Lines 192-199: the sender's handling of one received acknowledgment
packet with fields `ackNum` and `flags`.  If the ACK flag is set and
`acked_seq = ack_num - 1` is in the window, the window slides forward by the
pop loop; otherwise the window is unchanged.  The window holds Python ints
(`Int`), and `ack_num - 1` may be `-1` when `ack_num = 0`. -/
def senderHandleAck (window : List Int) (ackNum flags : Nat) : List Int × List Int :=
  if (parse_flags flags).2.1 ≠ 0 then
    if ((ackNum : Int) - 1) ∈ window then slideWindow window ((ackNum : Int) - 1)
    else ([], window)
  else ([], window)

/-- On a strictly ascending window the pop loop removes exactly the prefix of
entries `≤ ackedSeq`, which equals the filter of all such entries. -/
theorem slideWindow_eq_filter (a : Int) (w : List Int) (h : w.Pairwise (· < ·)) :
    slideWindow w a =
      (w.filter (fun s => decide (s ≤ a)), w.filter (fun s => decide (a < s))) := by
  induction w with
  | nil => rfl
  | cons s rest ih =>
    rcases List.pairwise_cons.mp h with ⟨hs, hrest⟩
    by_cases hsa : s ≤ a
    · have hna : ¬a < s := not_lt.mpr hsa
      simp [slideWindow, hsa, hna, ih hrest]
    · have has : a < s := not_le.mp hsa
      have h1 : rest.filter (fun t => decide (t ≤ a)) = [] :=
        List.filter_eq_nil_iff.mpr (fun t ht => by
          have := hs t ht
          simp only [decide_eq_true_eq]
          omega)
      have h2 : rest.filter (fun t => decide (a < t)) = rest :=
        List.filter_eq_self.mpr (fun t ht => by
          have := hs t ht
          simp only [decide_eq_true_eq]
          omega)
      simp [slideWindow, hsa, has, h1, h2]

/-- Claim C1: sender cumulative acknowledgment.  For any state of the
data-transfer loop (the window is strictly ascending, an invariant of its
construction at lines 185-199) and any received packet with the ACK flag
set and `ack_number = ackNum`: if the acknowledged sequence `ackNum - 1` is
in the in-flight window, every in-flight sequence `< ackNum` is evicted (the
evicted entries, in pop order, are exactly the ascending list of in-flight
sequences `< ackNum`) and exactly the sequences `≥ ackNum` remain — so no
sequence `≥ ackNum` is ever evicted; if `ackNum - 1` is not in flight, the
window is left unchanged and nothing is evicted. -/
theorem C1_cumulative_ack (window : List Int) (ackNum flags : Nat)
    (hsorted : window.Pairwise (· < ·))
    (hflag : (parse_flags flags).2.1 ≠ 0) :
    (((ackNum : Int) - 1) ∈ window →
        senderHandleAck window ackNum flags =
          (window.filter (fun s => decide (s < (ackNum : Int))),
           window.filter (fun s => decide ((ackNum : Int) ≤ s))) ∧
        (window.filter (fun s => decide (s < (ackNum : Int)))).Pairwise (· < ·)) ∧
    (((ackNum : Int) - 1) ∉ window →
        senderHandleAck window ackNum flags = ([], window)) := by
  constructor
  · intro hmem
    constructor
    · have heq := slideWindow_eq_filter ((ackNum : Int) - 1) window hsorted
      have hlt : ∀ x ∈ window,
          decide (x ≤ (ackNum : Int) - 1) = decide (x < (ackNum : Int)) :=
        fun x _ => decide_eq_decide.mpr (by omega)
      have hge : ∀ x ∈ window,
          decide ((ackNum : Int) - 1 < x) = decide ((ackNum : Int) ≤ x) :=
        fun x _ => decide_eq_decide.mpr (by omega)
      rw [List.filter_congr hlt, List.filter_congr hge] at heq
      simp [senderHandleAck, hflag, hmem, heq]
    · exact hsorted.filter _
  · intro hmem
    simp [senderHandleAck, hflag, hmem]

/-- Witness for C1: window `[1, 2, 3]`, ACK with `ack_number = 3` evicts
`[1, 2]` and keeps `[3]`. -/
theorem C1_cumulative_ack_witness :
    senderHandleAck [1, 2, 3] 3 4 =
      (([1, 2, 3] : List Int).filter (fun s => decide (s < ((3 : Nat) : Int))),
       ([1, 2, 3] : List Int).filter (fun s => decide (((3 : Nat) : Int) ≤ s))) :=
  ((C1_cumulative_ack [1, 2, 3] 3 4 (by decide) (by decide)).1 (by decide)).1

/-- Lines 200-207: the Go-Back-N timeout handler.  On `socket.timeout` the
sender walks the in-flight window in order; every sequence whose age exceeds
`TIMEOUT` has its stored bytes `packets[s]` resent and its `sent_time[s]`
refreshed to the current instant.  The first component lists the sequence
numbers retransmitted, in loop order; the second is the updated `sent_time`
map.  The repeated `time.time()` calls of the loop are modelled as the
single instant `now` at which the handler runs. -/
def retransmitTimedOut (now : ℚ) : List Int → (Int → ℚ) → List Int × (Int → ℚ)
  | [], sent_time => ([], sent_time)
  | s :: rest, sent_time =>
      if TIMEOUT < now - sent_time s then
        let r := retransmitTimedOut now rest (fun x => if x = s then now else sent_time x)
        (s :: r.1, r.2)
      else retransmitTimedOut now rest sent_time

/-- Counterexample to claim C2 as stated: on a timeout with in-flight window
`[1, 2]` where segment 2 was sent at the current instant (age `0 ≤ TIMEOUT`),
the handler retransmits only `[1]` — a proper subset of the in-flight set,
because the loop at lines 203-207 guards each resend by
`time.time() - sent_time[s] > TIMEOUT`. -/
theorem C2_retransmission_counterexample :
    (2 : Int) ∈ ([1, 2] : List Int) ∧
    (retransmitTimedOut 1 [1, 2] (fun s => if s = 1 then 0 else 1)).1 = [1] := by
  refine ⟨by decide, ?_⟩
  norm_num [retransmitTimedOut, TIMEOUT]

/-- Claim C2, amended: whenever the sender's bounded wait for an
acknowledgment times out, exactly those currently in-flight segments whose
age exceeds `TIMEOUT` are retransmitted (in window order), each with its
recorded send time refreshed to the instant of retransmission; an in-flight
segment whose age is within `TIMEOUT` is not retransmitted and keeps its
send time.  The window never holds duplicate sequence numbers (an invariant
of its construction). -/
theorem C2_retransmission_amended (now : ℚ) (window : List Int)
    (sent_time : Int → ℚ) (x : Int) (hnodup : window.Nodup) :
    (retransmitTimedOut now window sent_time).1 =
      window.filter (fun s => decide (TIMEOUT < now - sent_time s)) ∧
    (retransmitTimedOut now window sent_time).2 x =
      (if x ∈ window ∧ TIMEOUT < now - sent_time x then now else sent_time x) := by
  revert hnodup
  induction window generalizing sent_time with
  | nil => intro hnodup; simp [retransmitTimedOut]
  | cons s rest ih =>
    intro hnodup
    rcases List.nodup_cons.mp hnodup with ⟨hs, hrest⟩
    have hfc : ∀ t ∈ rest,
        decide (TIMEOUT < now - (if t = s then now else sent_time t)) =
          decide (TIMEOUT < now - sent_time t) := by
      intro t ht
      have hts : t ≠ s := fun he => hs (he ▸ ht)
      simp [hts]
    by_cases hc : TIMEOUT < now - sent_time s
    · have ihh := ih (fun y => if y = s then now else sent_time y) hrest
      constructor
      · simp only [retransmitTimedOut, if_pos hc]
        rw [ihh.1, List.filter_congr hfc]
        simp [hc]
      · simp only [retransmitTimedOut, if_pos hc]
        rw [ihh.2]
        by_cases hx : x = s
        · subst hx
          simp [hs, hc]
        · simp [hx, List.mem_cons]
    · have ihh := ih sent_time hrest
      constructor
      · simp only [retransmitTimedOut, if_neg hc]
        rw [ihh.1]
        simp [hc]
      · simp only [retransmitTimedOut, if_neg hc]
        rw [ihh.2]
        by_cases hx : x = s
        · subst hx
          simp [hs, hc]
        · simp [hx, List.mem_cons]

/-- Witness for C2's amended theorem at a concrete timeout state. -/
theorem C2_retransmission_amended_witness :
    (retransmitTimedOut 1 [1, 2] (fun s => if s = 1 then 0 else 1)).1 =
      ([1, 2] : List Int).filter
        (fun s => decide (TIMEOUT < 1 - (fun t : Int => if t = 1 then (0 : ℚ) else 1) s)) ∧
    (retransmitTimedOut 1 [1, 2] (fun s => if s = 1 then 0 else 1)).2 2 =
      (if (2 : Int) ∈ ([1, 2] : List Int) ∧
          TIMEOUT < 1 - (fun t : Int => if t = 1 then (0 : ℚ) else 1) 2
       then 1 else (fun t : Int => if t = 1 then (0 : ℚ) else 1) 2) :=
  C2_retransmission_amended 1 [1, 2] (fun t : Int => if t = 1 then (0 : ℚ) else 1) 2
    (by decide)

/-! ### Handshake handlers -/

/-- Reject payload literal `b"REJECT"` (line 263), as ASCII byte values. -/
def REJECT : List Nat := [82, 69, 74, 69, 67, 84]

/-- Lines 256-271: the server's handling of a received SYN packet carrying
sequence `seq` and requested window `client_window`.  If the requested
window exceeds `MAX_SERVER_WINDOW` the server sends the reject packet
`create_packet(0, 0, 0, 0, b"REJECT")` and closes (second component
`false` marks session termination); otherwise it replies with
`create_packet(0, seq + 1, SYN | ACK, MAX_SERVER_WINDOW)` and proceeds
(second component `true`).  `none` models the uncaught `struct.error`
raised inside `create_packet`. -/
def handleSyn (seq client_window : Nat) : Option (List Nat × Bool) :=
  if MAX_SERVER_WINDOW < client_window then
    (create_packet 0 0 0 0 REJECT).map (fun p => (p, false))
  else
    (create_packet 0 (seq + 1) (SYN ||| ACK) MAX_SERVER_WINDOW []).map (fun p => (p, true))

/-- Outcome of the client's wait for the handshake reply
(lines 136-161). -/
inductive ClientResult
  | rejected
  | windowTooLarge
  | badFlags
  | established (negotiated : Nat) (ackPkt : List Nat)
deriving DecidableEq, Repr

/-- Lines 137-161: the client's handling of the packet received after its
SYN, with the client's requested window `requested` and the packet's parsed
fields.  A `b"REJECT"` payload aborts before any flag check; with SYN and
ACK both set, a requested window larger than the server's advertised window
aborts with no further packet sent (`windowTooLarge` carries no packet:
`send_file` returns before the data phase); otherwise the client adopts
`WINDOW_SIZE = min(WINDOW_SIZE, server_window)` and sends
`create_packet(2, ack, ACK, WINDOW_SIZE)`. -/
def handleSynAck (requested ack flags server_window : Nat) (payload : List Nat) :
    Option ClientResult :=
  if payload = REJECT then some .rejected
  else if (parse_flags flags).1 ≠ 0 ∧ (parse_flags flags).2.1 ≠ 0 then
    if server_window < requested then some .windowTooLarge
    else
      match create_packet 2 ack ACK (min requested server_window) [] with
      | some pkt => some (.established (min requested server_window) pkt)
      | none => none
  else some .badFlags

/-- Counterexample to claim C6 as stated: a SYN with sequence 65535 and an
acceptable window gets no SYN+ACK reply — `create_packet(0, 65536, ...)`
raises `struct.error` (modelled as `none`) and the server process dies
instead of replying. -/
theorem C6_counterexample : handleSyn 65535 3 = none := by decide

/-- Claim C6, amended: on receiving a SYN whose advertised window exceeds
the server maximum (15), the server sends a packet with all header fields
zero and payload the ASCII bytes "REJECT" and terminates the session;
otherwise — provided the client's sequence is below 65535, since at 65535
packet construction fails — it replies with a SYN+ACK packet whose
`ack_number` is the client's sequence + 1 and whose window field is the
server maximum. -/
theorem C6_syn_window_check (seq client_window : Nat) (hseq : seq < 65535) :
    (MAX_SERVER_WINDOW < client_window →
        ∃ p, handleSyn seq client_window = some (p, false) ∧
          parse_packet p = .ok (0, 0, 0, 0, REJECT)) ∧
    (client_window ≤ MAX_SERVER_WINDOW →
        ∃ p, handleSyn seq client_window = some (p, true) ∧
          parse_packet p = .ok (0, seq + 1, SYN ||| ACK, MAX_SERVER_WINDOW, [])) := by
  constructor
  · intro h
    have hc := create_parse 0 0 0 0 REJECT (by decide) (by decide) (by decide) (by decide)
    exact ⟨_, by simp [handleSyn, h, hc.1], hc.2⟩
  · intro h
    have hc := create_parse 0 (seq + 1) (SYN ||| ACK) MAX_SERVER_WINDOW []
      (by decide) (by omega) (by decide) (by decide)
    exact ⟨_, by simp [handleSyn, Nat.not_lt.mpr h, hc.1], hc.2⟩

/-- Witness for C6: a SYN with sequence 1 and window 3 is answered by a
SYN+ACK with `ack_number = 2` and window 15. -/
theorem C6_syn_window_check_witness :
    ∃ p, handleSyn 1 3 = some (p, true) ∧
      parse_packet p = .ok (0, 1 + 1, SYN ||| ACK, MAX_SERVER_WINDOW, []) :=
  (C6_syn_window_check 1 3 (by decide)).2 (by decide)

/-- Claim C7: client-side window negotiation.  On a reply with no reject
payload and both SYN and ACK flags set: if the client's requested window
exceeds the peer-advertised window, the client aborts (`windowTooLarge`;
`send_file` returns at line 153, so no ACK and no data packet is ever
sent); otherwise it adopts `negotiated = min(requested, peer_advertised)`
(which equals the request) and sends an ACK packet
`create_packet(2, ack, ACK, negotiated)`. -/
theorem C7_window_negotiation (requested ack flags server_window : Nat)
    (payload : List Nat) (hrej : payload ≠ REJECT)
    (hsyn : (parse_flags flags).1 ≠ 0) (hack : (parse_flags flags).2.1 ≠ 0)
    (hackv : ack ≤ 65535) (hwin : server_window ≤ 65535) :
    (server_window < requested →
        handleSynAck requested ack flags server_window payload = some .windowTooLarge) ∧
    (requested ≤ server_window →
        ∃ pkt, handleSynAck requested ack flags server_window payload =
            some (.established (min requested server_window) pkt) ∧
          min requested server_window = requested ∧
          parse_packet pkt = .ok (2, ack, ACK, min requested server_window, [])) := by
  constructor
  · intro h
    simp [handleSynAck, hrej, hsyn, hack, h]
  · intro h
    have hc := create_parse 2 ack ACK (min requested server_window) []
      (by decide) hackv (by decide) (le_trans (Nat.min_le_right _ _) hwin)
    exact ⟨_, by simp [handleSynAck, hrej, hsyn, hack, Nat.not_lt.mpr h, hc.1],
      Nat.min_eq_left h, hc.2⟩

/-- Witness for C7: request 3 against advertised 15 establishes with
negotiated window 3 and an ACK packet. -/
theorem C7_window_negotiation_witness :
    ∃ pkt, handleSynAck 3 2 12 15 [1] =
        some (.established (min 3 15) pkt) ∧
      min 3 15 = 3 ∧
      parse_packet pkt = .ok (2, 2, ACK, min 3 15, []) :=
  (C7_window_negotiation 3 2 12 15 [1] (by decide) (by decide) (by decide)
    (by decide) (by decide)).2 (by decide)

/-! ### Sequential receiver: data phase -/

/-- Parsed fields of a datagram as the receiver's data loop uses them
(line 305 discards the ack and window fields). -/
structure RPacket where
  seq : Nat
  flags : Nat
  data : List Nat
deriving DecidableEq, Repr

/-- Receiver-side data-phase state (lines 296-300): `expected_seq` starts
at 1, `discard_seq` is the one-shot fault-injection trigger (`-1` when
disarmed), `total_bytes` the throughput byte counter, `fileData` the bytes
written to the output file so far. -/
structure RState where
  expected_seq : Nat
  discard_seq : Int
  total_bytes : Nat
  fileData : List Nat
deriving DecidableEq, Repr

/-- Observable effect of one iteration of the receive loop: a write to the
output file, a datagram sent back to the client, or the silent
fault-injection discard (which the source only logs). -/
inductive RAction
  | write (data : List Nat)
  | send (pkt : List Nat)
  | drop (seq : Nat)
deriving DecidableEq, Repr

/-- Lines 302-330: one iteration of the receiver's data loop on a parsed
packet.  In source order: a FIN-flagged packet is ACKed with
`create_packet(0, seq + 1, ACK, 0)` and the loop exits (`true`); else a
packet whose sequence equals the armed `discard_seq` is silently discarded
and the trigger cleared to `-1`; else a packet whose sequence equals
`expected_seq` has its data written, `PACKET_SIZE` added to `total_bytes`,
an ACK `create_packet(0, seq + 1, ACK, 0)` sent, and `expected_seq`
incremented; else the packet is ignored.  `none` models the uncaught
`struct.error` from `create_packet`. -/
def receiverStep (st : RState) (p : RPacket) : Option (RState × List RAction × Bool) :=
  if (parse_flags p.flags).2.2 ≠ 0 then
    match create_packet 0 (p.seq + 1) ACK 0 [] with
    | some ackPkt => some (st, [.send ackPkt], true)
    | none => none
  else if (p.seq : Int) = st.discard_seq then
    some ({ st with discard_seq := -1 }, [.drop p.seq], false)
  else if p.seq = st.expected_seq then
    match create_packet 0 (p.seq + 1) ACK 0 [] with
    | some ackPkt =>
        some ({ st with
                  expected_seq := st.expected_seq + 1,
                  total_bytes := st.total_bytes + PACKET_SIZE,
                  fileData := st.fileData ++ p.data },
              [.write p.data, .send ackPkt], false)
    | none => none
  else some (st, [], false)

/-- The receive loop over a list of incoming datagrams: iterate
`receiverStep` until the list is exhausted, a FIN exits the loop, or the
process dies (`none` step).  Returns the final state and the concatenated
trace of observable actions. -/
def receiverRun (st : RState) : List RPacket → RState × List RAction
  | [] => (st, [])
  | p :: rest =>
      match receiverStep st p with
      | none => (st, [])
      | some (st', acts, true) => (st', acts)
      | some (st', acts, false) =>
          let r := receiverRun st' rest
          (r.1, acts ++ r.2)

/-- Claim C3: receiver in-order enforcement.  A non-FIN packet in the data
phase whose sequence differs from `expected_seq` and is not the armed
fault-injection sequence produces no write, no acknowledgment, and leaves
the whole receiver state — in particular `expected_seq` and the byte
counter — unchanged. -/
theorem C3_out_of_order_ignored (st : RState) (p : RPacket)
    (hfin : (parse_flags p.flags).2.2 = 0)
    (hdisc : (p.seq : Int) ≠ st.discard_seq)
    (hexp : p.seq ≠ st.expected_seq) :
    receiverStep st p = some (st, [], false) := by
  simp [receiverStep, hfin, hdisc, hexp]

/-- Witness for C3: packet 3 received while expecting 1 with trigger armed
at 5 is ignored. -/
theorem C3_out_of_order_ignored_witness :
    receiverStep ⟨1, 5, 0, []⟩ ⟨3, 0, [7]⟩ = some (⟨1, 5, 0, []⟩, [], false) :=
  C3_out_of_order_ignored ⟨1, 5, 0, []⟩ ⟨3, 0, [7]⟩ (by decide) (by decide) (by decide)

/-- Counterexample to claim C8 as stated: an accepted packet with a 1-byte
payload increases the byte counter by the fixed `PACKET_SIZE = 1000`, not
by its on-wire size `HEADER_SIZE + 1 = 9` — line 321 adds `PACKET_SIZE`
regardless of the payload length. -/
theorem C8_counterexample :
    (receiverStep ⟨1, -1, 0, []⟩ ⟨1, 0, [65]⟩).map (fun r => r.1.total_bytes) =
      some PACKET_SIZE ∧
    HEADER_SIZE + ([65] : List Nat).length ≠ PACKET_SIZE := by decide

/-- Claim C8, amended: for every received non-FIN packet whose sequence
equals `expected_seq`, is not the armed fault-injection sequence, and is
below 65535 (at 65535 the ACK construction fails), the receiver writes its
payload to the sink, adds the fixed `PACKET_SIZE` (1000 bytes) — not the
packet's actual on-wire size — to the received-byte counter, sends a pure
ACK with `ack_number = expected_seq + 1`, and increments `expected_seq` by
one. -/
theorem C8_accepted_packet (st : RState) (p : RPacket)
    (hfin : (parse_flags p.flags).2.2 = 0)
    (hdisc : (p.seq : Int) ≠ st.discard_seq)
    (hexp : p.seq = st.expected_seq)
    (h65 : p.seq < 65535) :
    ∃ ackPkt,
      receiverStep st p =
        some ({ st with
                  expected_seq := st.expected_seq + 1,
                  total_bytes := st.total_bytes + PACKET_SIZE,
                  fileData := st.fileData ++ p.data },
              [.write p.data, .send ackPkt], false) ∧
      parse_packet ackPkt = .ok (0, st.expected_seq + 1, ACK, 0, []) := by
  have hc := create_parse 0 (p.seq + 1) ACK 0 [] (by decide) (by omega) (by decide) (by decide)
  rw [hexp] at hc hdisc
  refine ⟨_, ?_, hc.2⟩
  simp [receiverStep, hfin, hdisc, hexp, hc.1]

/-- Witness for C8's amended theorem: the expected packet 1 is accepted,
written, counted at 1000 bytes, and ACKed with `ack_number = 2`. -/
theorem C8_accepted_packet_witness :
    ∃ ackPkt,
      receiverStep ⟨1, 5, 0, []⟩ ⟨1, 0, [65, 66]⟩ =
        some ({ RState.mk 1 5 0 [] with
                  expected_seq := 1 + 1,
                  total_bytes := 0 + PACKET_SIZE,
                  fileData := [] ++ [65, 66] },
              [.write [65, 66], .send ackPkt], false) ∧
      parse_packet ackPkt = .ok (0, 1 + 1, ACK, 0, []) :=
  C8_accepted_packet ⟨1, 5, 0, []⟩ ⟨1, 0, [65, 66]⟩
    (by decide) (by decide) (by decide) (by decide)

/-- Counterexample to claim C10 as stated: a FIN packet with sequence 65535
is not ACKed — `create_packet(0, 65536, ACK, 0)` raises `struct.error`
(modelled as `none`) and the receiver process dies. -/
theorem C10_counterexample : receiverStep ⟨1, 5, 0, []⟩ ⟨65535, 2, []⟩ = none := by
  decide

/-- Claim C10, amended: FIN takes priority over all other receiver checks.
For every data-phase packet with the FIN flag set and sequence below 65535
— including one whose sequence equals the armed fault-injection sequence or
differs from `expected_seq` — the receiver replies with an ACK whose
`ack_number = seq + 1` and exits its receive loop, with the state
untouched; a FIN is never silently discarded by the fault-injection or
in-order checks. -/
theorem C10_fin_priority (st : RState) (p : RPacket)
    (hfin : (parse_flags p.flags).2.2 ≠ 0)
    (h65 : p.seq < 65535) :
    ∃ ackPkt, receiverStep st p = some (st, [.send ackPkt], true) ∧
      parse_packet ackPkt = .ok (0, p.seq + 1, ACK, 0, []) := by
  have hc := create_parse 0 (p.seq + 1) ACK 0 [] (by decide) (by omega) (by decide) (by decide)
  refine ⟨_, ?_, hc.2⟩
  simp [receiverStep, hfin, hc.1]

/-- Witness for C10: a FIN whose sequence 5 equals the armed trigger and
differs from `expected_seq = 1` is still ACKed with `ack_number = 6` and
ends the loop. -/
theorem C10_fin_priority_witness :
    ∃ ackPkt, receiverStep ⟨1, 5, 0, []⟩ ⟨5, 2, [9]⟩ =
        some (⟨1, 5, 0, []⟩, [.send ackPkt], true) ∧
      parse_packet ackPkt = .ok (0, 5 + 1, ACK, 0, []) :=
  C10_fin_priority ⟨1, 5, 0, []⟩ ⟨5, 2, [9]⟩ (by decide) (by decide)

/-! ### One-shot fault injection (claim C5) -/

/-- Recogniser for the fault-injection discard action. -/
def isDrop : RAction → Bool
  | .drop _ => true
  | _ => false

/-- Number of fault-injection discards in a trace. -/
def numDrops (tr : List RAction) : Nat := (tr.filter isDrop).length

/-- Drop counts add up across concatenated traces. -/
theorem numDrops_append (l1 l2 : List RAction) :
    numDrops (l1 ++ l2) = numDrops l1 + numDrops l2 := by
  simp [numDrops, List.filter_append]

/-- A trace with drop count zero contains no discard action. -/
theorem drop_not_mem_of_numDrops_zero (tr : List RAction) (s : Nat)
    (h : numDrops tr = 0) : RAction.drop s ∉ tr := by
  intro hmem
  have h2 : tr.filter isDrop = [] := List.length_eq_zero.mp h
  exact (List.filter_eq_nil_iff.mp h2 _ hmem) rfl

/-- Classification of one successful receiver step: either it produces no
discard and leaves the trigger as it was, or it is exactly the
fault-injection branch — the packet's sequence equals the armed trigger,
the only action is the silent discard, the trigger is cleared to `-1`, and
the loop continues. -/
theorem receiverStep_drop_spec (st : RState) (p : RPacket) (st' : RState)
    (acts : List RAction) (d : Bool)
    (hstep : receiverStep st p = some (st', acts, d)) :
    (numDrops acts = 0 ∧ st'.discard_seq = st.discard_seq) ∨
    (acts = [RAction.drop p.seq] ∧ (p.seq : Int) = st.discard_seq ∧
      st'.discard_seq = -1 ∧ d = false) := by
  unfold receiverStep at hstep
  split at hstep
  · split at hstep
    · simp only [Option.some.injEq, Prod.mk.injEq] at hstep
      obtain ⟨h1, h2, h3⟩ := hstep
      left
      exact ⟨by rw [← h2]; rfl, by rw [← h1]⟩
    · cases hstep
  · split at hstep
    · rename_i hd
      simp only [Option.some.injEq, Prod.mk.injEq] at hstep
      obtain ⟨h1, h2, h3⟩ := hstep
      right
      exact ⟨h2.symm, hd, by rw [← h1], h3.symm⟩
    · split at hstep
      · split at hstep
        · simp only [Option.some.injEq, Prod.mk.injEq] at hstep
          obtain ⟨h1, h2, h3⟩ := hstep
          left
          exact ⟨by rw [← h2]; rfl, by rw [← h1]⟩
        · cases hstep
      · simp only [Option.some.injEq, Prod.mk.injEq] at hstep
        obtain ⟨h1, h2, h3⟩ := hstep
        left
        exact ⟨by rw [← h2]; rfl, by rw [← h1]⟩

/-- With the trigger disarmed (negative), a run never discards: a wire
sequence number is a nonnegative 16-bit value and can never equal the
sentinel `-1`. -/
theorem receiverRun_no_drops_of_neg (ps : List RPacket) (st : RState) :
    st.discard_seq < 0 → numDrops (receiverRun st ps).2 = 0 := by
  induction ps generalizing st with
  | nil => intro h; rfl
  | cons p rest ih =>
    intro h
    cases hstep : receiverStep st p with
    | none => simp [receiverRun, hstep, numDrops]
    | some r =>
      obtain ⟨st', acts, d⟩ := r
      have hacts : numDrops acts = 0 ∧ st'.discard_seq = st.discard_seq := by
        rcases receiverStep_drop_spec st p st' acts d hstep with h1 | ⟨_, h2, _, _⟩
        · exact h1
        · exfalso; omega
      cases d with
      | true => simpa [receiverRun, hstep] using hacts.1
      | false =>
        have ihh := ih st' (by rw [hacts.2]; exact h)
        simp [receiverRun, hstep, numDrops_append, hacts.1, ihh]

/-- With the trigger disarmed, a run leaves it disarmed. -/
theorem receiverRun_discard_of_neg (ps : List RPacket) (st : RState) :
    st.discard_seq < 0 → (receiverRun st ps).1.discard_seq = st.discard_seq := by
  induction ps generalizing st with
  | nil => intro h; rfl
  | cons p rest ih =>
    intro h
    cases hstep : receiverStep st p with
    | none => simp [receiverRun, hstep]
    | some r =>
      obtain ⟨st', acts, d⟩ := r
      have hd : st'.discard_seq = st.discard_seq := by
        rcases receiverStep_drop_spec st p st' acts d hstep with ⟨_, h1⟩ | ⟨_, h2, _, _⟩
        · exact h1
        · exfalso; omega
      cases d with
      | true => simpa [receiverRun, hstep] using hd
      | false =>
        have ihh := ih st' (by rw [hd]; exact h)
        simpa [receiverRun, hstep, hd] using ihh

/-- Any run performs at most one fault-injection discard: the discard
clears the trigger, after which `receiverRun_no_drops_of_neg` applies. -/
theorem receiverRun_numDrops_le_one (ps : List RPacket) (st : RState) :
    numDrops (receiverRun st ps).2 ≤ 1 := by
  induction ps generalizing st with
  | nil => simp [receiverRun, numDrops]
  | cons p rest ih =>
    cases hstep : receiverStep st p with
    | none => simp [receiverRun, hstep, numDrops]
    | some r =>
      obtain ⟨st', acts, d⟩ := r
      cases d with
      | true =>
        rcases receiverStep_drop_spec st p st' acts true hstep with ⟨h1, _⟩ | ⟨h1, _, _, _⟩
        · simp [receiverRun, hstep, h1]
        · simp [receiverRun, hstep, h1, numDrops, isDrop]
      | false =>
        rcases receiverStep_drop_spec st p st' acts false hstep with ⟨h1, _⟩ | ⟨h1, _, h3, _⟩
        · have ihh := ih st'
          simp only [receiverRun, hstep]
          rw [numDrops_append, h1]
          omega
        · have h0 := receiverRun_no_drops_of_neg rest st' (by omega)
          simp only [receiverRun, hstep]
          rw [numDrops_append, h0, h1]
          simp [numDrops, isDrop]

/-- Every discard in a run is of the sequence the run started armed with. -/
theorem receiverRun_drop_mem (ps : List RPacket) (st : RState) (s : Nat) :
    RAction.drop s ∈ (receiverRun st ps).2 → (s : Int) = st.discard_seq := by
  induction ps generalizing st with
  | nil => intro h; simp [receiverRun] at h
  | cons p rest ih =>
    intro hmem
    cases hstep : receiverStep st p with
    | none => simp [receiverRun, hstep] at hmem
    | some r =>
      obtain ⟨st', acts, d⟩ := r
      cases d with
      | true =>
        simp only [receiverRun, hstep] at hmem
        rcases receiverStep_drop_spec st p st' acts true hstep with ⟨h1, _⟩ | ⟨h1, h2, _, _⟩
        · exact absurd hmem (drop_not_mem_of_numDrops_zero acts s h1)
        · rw [h1] at hmem
          simp at hmem
          rw [hmem]
          exact h2
      | false =>
        simp only [receiverRun, hstep] at hmem
        rcases List.mem_append.mp hmem with hin | hin
        · rcases receiverStep_drop_spec st p st' acts false hstep with ⟨h1, _⟩ | ⟨h1, h2, _, _⟩
          · exact absurd hin (drop_not_mem_of_numDrops_zero acts s h1)
          · rw [h1] at hin
            simp at hin
            rw [hin]
            exact h2
        · rcases receiverStep_drop_spec st p st' acts false hstep with ⟨_, h2⟩ | ⟨_, _, h3, _⟩
          · rw [← h2]
            exact ih st' hin
          · have h0 := receiverRun_no_drops_of_neg rest st' (by omega)
            exact absurd hin (drop_not_mem_of_numDrops_zero _ s h0)

/-- A run started with the trigger armed at a sequence that some non-FIN
packet carries before any FIN performs exactly one discard and ends with
the trigger cleared.  The bound `seq < 65535` keeps every ACK
constructible (claim C6/C10 territory), so the loop cannot die early. -/
theorem receiverRun_one_drop (ps : List RPacket) (st : RState) :
    0 ≤ st.discard_seq →
    (∀ p ∈ ps, p.seq < 65535) →
    (∃ p ∈ ps.takeWhile (fun r => decide ((parse_flags r.flags).2.2 = 0)),
        (p.seq : Int) = st.discard_seq) →
    numDrops (receiverRun st ps).2 = 1 ∧
      (receiverRun st ps).1.discard_seq = -1 := by
  induction ps generalizing st with
  | nil => intro _ _ hocc; simp at hocc
  | cons p rest ih =>
    intro hk h65 hocc
    by_cases hfin : (parse_flags p.flags).2.2 = 0
    · by_cases hd : (p.seq : Int) = st.discard_seq
      · have hstep : receiverStep st p =
            some ({ st with discard_seq := -1 }, [RAction.drop p.seq], false) := by
          simp [receiverStep, hfin, hd]
        have h0 := receiverRun_no_drops_of_neg rest { st with discard_seq := -1 } (by simp)
        have hfd := receiverRun_discard_of_neg rest { st with discard_seq := -1 } (by simp)
        constructor
        · simp only [receiverRun, hstep]
          rw [numDrops_append, h0]
          simp [numDrops, isDrop]
        · simpa [receiverRun, hstep] using hfd
      · have hocc' : ∃ q ∈ rest.takeWhile (fun r => decide ((parse_flags r.flags).2.2 = 0)),
            (q.seq : Int) = st.discard_seq := by
          rcases hocc with ⟨q, hq, hqP⟩
          rw [List.takeWhile_cons] at hq
          simp [hfin] at hq
          rcases hq with rfl | hq'
          · exact absurd hqP hd
          · exact ⟨q, hq', hqP⟩
        have h65' : ∀ q ∈ rest, q.seq < 65535 := fun q hq => h65 q (by simp [hq])
        by_cases hexp : p.seq = st.expected_seq
        · have hc := create_parse 0 (p.seq + 1) ACK 0 []
            (by decide) (by have := h65 p (by simp); omega) (by decide) (by decide)
          rw [hexp] at hd hc
          have hstep : receiverStep st p =
              some ({ st with
                        expected_seq := st.expected_seq + 1,
                        total_bytes := st.total_bytes + PACKET_SIZE,
                        fileData := st.fileData ++ p.data },
                    [RAction.write p.data, RAction.send
                      (pack16 0 ++ pack16 (st.expected_seq + 1) ++ pack16 ACK ++ pack16 0 ++ [])],
                    false) := by
            simp [receiverStep, hfin, hd, hexp, hc.1]
          have ihh := ih { st with
              expected_seq := st.expected_seq + 1,
              total_bytes := st.total_bytes + PACKET_SIZE,
              fileData := st.fileData ++ p.data } hk h65' hocc'
          constructor
          · simp only [receiverRun, hstep]
            rw [numDrops_append, ihh.1]
            simp [numDrops, isDrop]
          · simpa [receiverRun, hstep] using ihh.2
        · have hstep : receiverStep st p = some (st, [], false) := by
            simp [receiverStep, hfin, hd, hexp]
          have ihh := ih st hk h65' hocc'
          constructor
          · simpa [receiverRun, hstep, numDrops_append] using ihh.1
          · simpa [receiverRun, hstep] using ihh.2
    · exfalso
      rcases hocc with ⟨q, hq, _⟩
      rw [List.takeWhile_cons] at hq
      simp [hfin] at hq

/-- Claim C5: fault-injection one-shot.  Starting the data phase with the
trigger armed at `k ≥ 0`, on any incoming datagram list in which some
non-FIN packet carries sequence `k` before the first FIN (and all wire
sequences are below 65535 so every ACK is constructible), the receiver
discards exactly one packet; every discarded packet has sequence `k`; the
run ends with the trigger cleared to `-1`; a run whose trigger is already
cleared never discards again (so every later packet with sequence `k` is
handled by the normal FIN/accept/ignore branches); any run discards at
most once; and the firing step itself is the silent discard of the non-FIN
packet with sequence `k` — no write, no acknowledgment, trigger cleared. -/
theorem C5_fault_injection (k : Int) (ps : List RPacket) (st2 : RState)
    (qs : List RPacket) (st3 : RState) (q : RPacket) (s : Nat)
    (hk : 0 ≤ k)
    (h65 : ∀ p ∈ ps, p.seq < 65535)
    (hocc : ∃ p ∈ ps.takeWhile (fun r => decide ((parse_flags r.flags).2.2 = 0)),
        (p.seq : Int) = k) :
    numDrops (receiverRun ⟨1, k, 0, []⟩ ps).2 = 1 ∧
    (RAction.drop s ∈ (receiverRun ⟨1, k, 0, []⟩ ps).2 → (s : Int) = k) ∧
    (receiverRun ⟨1, k, 0, []⟩ ps).1.discard_seq = -1 ∧
    (st2.discard_seq = -1 → numDrops (receiverRun st2 qs).2 = 0) ∧
    numDrops (receiverRun st2 qs).2 ≤ 1 ∧
    (st3.discard_seq = k → (parse_flags q.flags).2.2 = 0 → (q.seq : Int) = k →
        receiverStep st3 q =
          some ({ st3 with discard_seq := -1 }, [RAction.drop q.seq], false)) := by
  have hmain := receiverRun_one_drop ps ⟨1, k, 0, []⟩ hk h65 hocc
  refine ⟨hmain.1, ?_, hmain.2, ?_, receiverRun_numDrops_le_one qs st2, ?_⟩
  · exact fun hm => receiverRun_drop_mem ps ⟨1, k, 0, []⟩ s hm
  · intro h
    exact receiverRun_no_drops_of_neg qs st2 (by omega)
  · intro h1 h2 h3
    simp [receiverStep, h2, h1, h3]

/-- Witness for C5: trigger armed at 2; packets 1, 2, 2 (retransmission),
then FIN; the first packet with sequence 2 is the single discard. -/
theorem C5_fault_injection_witness :
    numDrops (receiverRun ⟨1, 2, 0, []⟩
      [⟨1, 0, [10]⟩, ⟨2, 0, [20]⟩, ⟨2, 0, [20]⟩, ⟨3, 2, []⟩]).2 = 1 :=
  (C5_fault_injection 2 [⟨1, 0, [10]⟩, ⟨2, 0, [20]⟩, ⟨2, 0, [20]⟩, ⟨3, 2, []⟩]
    ⟨1, -1, 0, []⟩ [⟨2, 0, [5]⟩] ⟨1, 2, 0, []⟩ ⟨2, 0, [9]⟩ 2
    (by decide) (by decide) (by decide)).1

end DRTP
